import Mathlib

/-!
Verification of the docstream ingestion worker
(`services/ingestion-worker/src`): a shallow embedding of
`pdf_parser.py` (`VisionPDFParser.parse_pdf_in_batches`, `_run_inference`),
`core/chunking.py` (`DocumentChunker.chunk_batch`, `_generate_chunk_id`)
and `main.py` (`process_job`), together with theorems settling the
specification claims.

External collaborators (pdf2image, the llama.cpp backend, the langchain
splitters, MinIO, the message queue) are modelled as explicit oracle
functions; machine integers are `Nat` with explicit `% 2 ^ w`; Python
exceptions are `Except`/`Option` values.
-/

/-- Left-to-right concatenation of the lists produced for each element,
modelling a Python loop that `extend`s / `append`s into an accumulator. -/
def concatMap {α β : Type} (f : α → List β) : List α → List β
  | [] => []
  | a :: as => f a ++ concatMap f as

/-- The list `s, s+1, ..., s+len-1`, modelling an inclusive page span. -/
def natRange (s : Nat) : Nat → List Nat
  | 0 => []
  | len + 1 => s :: natRange (s + 1) len

/-- Python `range(start, stop, step)` for a positive `step`:
`start + k * step` for `k < ⌈(stop - start) / step⌉`. -/
def pyRange (start stop step : Nat) : List Nat :=
  (List.range ((stop - start + step - 1) / step)).map (fun k => start + k * step)

/-- Python ASCII whitespace as used by `str.strip`. -/
def isPySpace (c : Char) : Bool :=
  c = ' ' || c = '\t' || c = '\n' || c = '\r' || c.toNat = 11 || c.toNat = 12

/-- Python `str.strip()`: remove whitespace from both ends. -/
def pyStrip (s : String) : String :=
  String.mk (((s.data.dropWhile isPySpace).reverse.dropWhile isPySpace).reverse)

/-- Python `os.path.basename` on POSIX: the part after the last `/`. -/
def basename (s : String) : String :=
  String.mk ((s.data.reverse.takeWhile (fun c => c ≠ '/')).reverse)

/-- The `metadata` sub-dict attached to every successful page result in
`parse_pdf_in_batches` (`pdf_parser.py` lines 115-119). -/
structure PageMeta where
  source : String
  total_pages : Nat
  processed_at_dpi : Nat
deriving DecidableEq, Repr

/-- One element of a yielded batch.  The Python code yields plain dicts;
a field of value `none` models an absent dict key (the success dict has
keys `page_num`, `text`, `metadata`; the window-failure dict has only
`page_num` and `error`). -/
structure PageResult where
  page_num : Nat
  text : Option String
  metadata : Option PageMeta
  error : Option String
deriving DecidableEq, Repr

/-- `VisionPDFParser._run_inference` (`pdf_parser.py` lines 141-185): the
whole body is one `try`; on success the model response content is
`.strip()`-ed, on any exception the empty string is returned.  The
`backend` oracle stands for the base64 conversion plus
`llm.create_chat_completion` plus response-field extraction; its `.error`
case models any exception raised in the `try` body. -/
def _run_inference {Image : Type} (backend : Image → Except String String)
    (image : Image) : String :=
  match backend image with
  | .ok content => pyStrip content
  | .error _ => ""

/-- The per-page loop body of `parse_pdf_in_batches` (lines 103-123),
iterating over the rendered images of one window.  `page_num` is
`start_page + i` for the `i`-th image.  The `fault` oracle models an
unexpected exception (e.g. `MemoryError`) escaping the loop body at a
given page — `_run_inference` itself never raises (it catches
`Exception`), so `fault` is the only way the window `try` block can fail
after rendering succeeded.  An `.error` aborts the whole window,
discarding the results accumulated so far, exactly as a raised exception
discards `batch_results`. -/
def transcribeImages {Image : Type} (backend : Image → Except String String)
    (fault : Nat → Option String) (source_name : String)
    (total_pages dpi : Nat) : Nat → List Image → Except String (List PageResult)
  | _, [] => .ok []
  | page_num, image :: rest =>
    match fault page_num with
    | some e => .error e
    | none =>
      match transcribeImages backend fault source_name total_pages dpi
          (page_num + 1) rest with
      | .error e => .error e
      | .ok prs =>
        .ok (⟨page_num, some (_run_inference backend image),
              some ⟨source_name, total_pages, dpi⟩, none⟩ :: prs)

/-- `VisionPDFParser.parse_pdf_in_batches` (`pdf_parser.py` lines 51-138).

* `info` is the outcome of `pdfinfo_from_bytes(pdf_bytes)["Pages"]`; on
  failure the function raises `ValueError("Invalid PDF file")` before the
  loop, modelled as `.error "Invalid PDF file"`.
* The loop runs `start_page` over `range(1, total_pages + 1, batch_size)`
  and sets `end_page = min(start_page + batch_size, total_pages)`.
* `render s e` is `convert_from_bytes(..., first_page=s, last_page=e)`
  (both bounds inclusive in pdf2image); its `.error` models a raised
  exception, which the `except` branch turns into the single-element
  batch `[{"page_num": start_page, "error": str(e)}]`.
* A `fault` partway through a window likewise reaches the `except`
  branch.

The generator's yields are collected into a list, one batch per window. -/
def parse_pdf_in_batches {Image : Type} (info : Except String Nat)
    (render : Nat → Nat → Except String (List Image))
    (backend : Image → Except String String)
    (fault : Nat → Option String)
    (source_name : String) (batch_size dpi : Nat) :
    Except String (List (List PageResult)) :=
  match info with
  | .error _ => .error "Invalid PDF file"
  | .ok total_pages =>
    .ok ((pyRange 1 (total_pages + 1) batch_size).map (fun start_page =>
      let end_page := min (start_page + batch_size) total_pages
      match render start_page end_page with
      | .error e => [⟨start_page, none, none, some e⟩]
      | .ok images =>
        match transcribeImages backend fault source_name total_pages dpi
            start_page images with
        | .error e => [⟨start_page, none, none, some e⟩]
        | .ok batch_results => batch_results))

/-- The page numbers of the batches of a parse run, in emission order. -/
def emittedPageNums (batches : List (List PageResult)) : List Nat :=
  concatMap (fun batch => batch.map PageResult.page_num) batches

/-- C6: for every byte buffer whose page count cannot be determined
(`pdfinfo_from_bytes` raises), `parse_pdf_in_batches` raises the invalid
document error (`ValueError("Invalid PDF file")`) and yields no batches;
the result does not depend on the renderer or backend, so no rendering
has begun. -/
theorem C6_invalid_document {Image : Type} (e : String)
    (render : Nat → Nat → Except String (List Image))
    (backend : Image → Except String String)
    (fault : Nat → Option String) (src : String) (batch_size dpi : Nat) :
    parse_pdf_in_batches (.error e) render backend fault src batch_size dpi
      = .error "Invalid PDF file" := rfl

/-- C8: if the inference backend raises during transcription of a page
image, `_run_inference` returns the empty string instead of propagating
the exception. -/
theorem C8_inference_degrades {Image : Type}
    (backend : Image → Except String String) (image : Image) (e : String)
    (h : backend image = .error e) :
    _run_inference backend image = "" := by
  unfold _run_inference
  rw [h]

/-- Witness for C8 at a concrete backend that fails on the unit image. -/
theorem C8_inference_degrades_witness :
    _run_inference (fun _ : Unit => Except.error "backend down") () = "" :=
  C8_inference_degrades (fun _ : Unit => Except.error "backend down") () "backend down" rfl

/-! ### MD5 (`hashlib.md5(...).hexdigest()` in `_generate_chunk_id`) -/

/-- The 32-bit left rotation used by MD5, on `Nat` values below `2 ^ 32`. -/
def rotl32 (x n : Nat) : Nat :=
  ((x <<< n) % 4294967296) ||| (x >>> (32 - n))

/-- The MD5 sine-derived round constants `K[0..63]`. -/
def md5K : List Nat :=
  [3614090360, 3905402710, 606105819, 3250441966, 4118548399, 1200080426,
   2821735955, 4249261313, 1770035416, 2336552879, 4294925233, 2304563134,
   1804603682, 4254626195, 2792965006, 1236535329, 4129170786, 3225465664,
   643717713, 3921069994, 3593408605, 38016083, 3634488961, 3889429448,
   568446438, 3275163606, 4107603335, 1163531501, 2850285829, 4243563512,
   1735328473, 2368359562, 4294588738, 2272392833, 1839030562, 4259657740,
   2763975236, 1272893353, 4139469664, 3200236656, 681279174, 3936430074,
   3572445317, 76029189, 3654602809, 3873151461, 530742520, 3299628645,
   4096336452, 1126891415, 2878612391, 4237533241, 1700485571, 2399980690,
   4293915773, 2240044497, 1873313359, 4264355552, 2734768916, 1309151649,
   4149444226, 3174756917, 718787259, 3951481745]

/-- The MD5 per-round left-rotation amounts `s[0..63]`. -/
def md5S : List Nat :=
  [7, 12, 17, 22, 7, 12, 17, 22, 7, 12, 17, 22, 7, 12, 17, 22,
   5, 9, 14, 20, 5, 9, 14, 20, 5, 9, 14, 20, 5, 9, 14, 20,
   4, 11, 16, 23, 4, 11, 16, 23, 4, 11, 16, 23, 4, 11, 16, 23,
   6, 10, 15, 21, 6, 10, 15, 21, 6, 10, 15, 21, 6, 10, 15, 21]

/-- The MD5 nonlinear round function for round `i` on words `b c d`. -/
def md5F (i b c d : Nat) : Nat :=
  if i < 16 then (b &&& c) ||| ((b ^^^ 4294967295) &&& d)
  else if i < 32 then (d &&& b) ||| ((d ^^^ 4294967295) &&& c)
  else if i < 48 then b ^^^ c ^^^ d
  else c ^^^ (b ||| (d ^^^ 4294967295))

/-- The MD5 message-word index for round `i`. -/
def md5g (i : Nat) : Nat :=
  if i < 16 then i
  else if i < 32 then (5 * i + 1) % 16
  else if i < 48 then (3 * i + 5) % 16
  else (7 * i) % 16

/-- A 64-bit value as 8 little-endian bytes. -/
def le64 (x : Nat) : List Nat :=
  (List.range 8).map (fun i => (x >>> (8 * i)) % 256)

/-- A 32-bit value as 4 little-endian bytes. -/
def le32 (x : Nat) : List Nat :=
  (List.range 4).map (fun i => (x >>> (8 * i)) % 256)

/-- MD5 padding: a `0x80` byte, zeros to 56 mod 64, then the bit length
as 8 little-endian bytes. -/
def md5Pad (msg : List Nat) : List Nat :=
  let len := msg.length
  msg ++ 128 :: List.replicate ((119 - len % 64) % 64) 0
      ++ le64 ((len * 8) % 18446744073709551616)

/-- The little-endian 32-bit word `g` of a 64-byte block. -/
def leWord (block : List Nat) (g : Nat) : Nat :=
  block.getD (4 * g) 0 + 256 * block.getD (4 * g + 1) 0
    + 65536 * block.getD (4 * g + 2) 0 + 16777216 * block.getD (4 * g + 3) 0

/-- One MD5 round on state `(a, b, c, d)`. -/
def md5Round (block : List Nat) (st : Nat × Nat × Nat × Nat) (i : Nat) :
    Nat × Nat × Nat × Nat :=
  match st with
  | (a, b, c, d) =>
    let f := (md5F i b c d + a + md5K.getD i 0 + leWord block (md5g i)) % 4294967296
    (d, (b + rotl32 f (md5S.getD i 0)) % 4294967296, b, c)

/-- Processing one 64-byte block: 64 rounds, then add into the state. -/
def md5Block (st : Nat × Nat × Nat × Nat) (block : List Nat) :
    Nat × Nat × Nat × Nat :=
  match st, (List.range 64).foldl (md5Round block) st with
  | (a0, b0, c0, d0), (a, b, c, d) =>
    ((a0 + a) % 4294967296, (b0 + b) % 4294967296,
     (c0 + c) % 4294967296, (d0 + d) % 4294967296)

/-- Split a byte list into 64-byte blocks. -/
def toBlocks (l : List Nat) : List (List Nat) :=
  (List.range ((l.length + 63) / 64)).map (fun i => (l.drop (64 * i)).take 64)

/-- The 16-byte MD5 digest of a byte string. -/
def md5Bytes (msg : List Nat) : List Nat :=
  match (toBlocks (md5Pad msg)).foldl md5Block
      (1732584193, 4023233417, 2562383102, 271733878) with
  | (a, b, c, d) => le32 a ++ le32 b ++ le32 c ++ le32 d

/-- A nibble as a lowercase hexadecimal character. -/
def hexDigit (n : Nat) : Char :=
  if n < 10 then Char.ofNat (48 + n) else Char.ofNat (87 + n)

/-- The lowercase hex rendering of a byte list, two digits per byte:
`hashlib`'s `.hexdigest()`. -/
def bytesToHex (bs : List Nat) : String :=
  String.mk (concatMap (fun b => [hexDigit (b / 16), hexDigit (b % 16)]) bs)

/-- `hashlib.md5(bytes).hexdigest()`. -/
def md5Hex (msg : List Nat) : String :=
  bytesToHex (md5Bytes msg)

/-- UTF-8 encoding of one Unicode scalar value. -/
def utf8Bytes (c : Nat) : List Nat :=
  if c < 128 then [c]
  else if c < 2048 then [192 + c / 64, 128 + c % 64]
  else if c < 65536 then [224 + c / 4096, 128 + (c / 64) % 64, 128 + c % 64]
  else [240 + c / 262144, 128 + (c / 4096) % 64, 128 + (c / 64) % 64, 128 + c % 64]

/-- Python `str.encode("utf-8")` as a byte list. -/
def strBytes (s : String) : List Nat :=
  concatMap (fun ch => utf8Bytes ch.toNat) s.data

example : md5Hex (strBytes "") = "d41d8cd98f00b204e9800998ecf8427e" := by decide
example : md5Hex (strBytes "abc") = "900150983cd24fb0d6963f7d28e17f72" := by decide

/-! ### `core/chunking.py` — `DocumentChunker` -/

/-- A langchain `Document`: `page_content` plus a string-keyed metadata
dict (for header splits: the header-path entries, e.g.
`("Header 1", ...)`). -/
structure Doc where
  page_content : String
  metadata : List (String × String)
deriving DecidableEq, Repr

/-- The merged chunk metadata built in `chunk_batch` (STEP C):
`{**original_metadata, **split.metadata, "page_num": ..., "chunk_strategy": ...}`.
The four key groups are disjoint, so the dict-merge is modelled as a
four-component record. -/
structure ChunkMeta where
  original : Option PageMeta
  header : List (String × String)
  page_num : Nat
  chunk_strategy : String
deriving DecidableEq, Repr

/-- The chunk dict appended to `all_chunks`: `{"id", "text", "metadata"}`. -/
structure Chunk where
  id : String
  text : String
  metadata : ChunkMeta
deriving DecidableEq, Repr

/-- `DocumentChunker._generate_chunk_id` (`chunking.py` lines 104-109):
`hashlib.md5(f"{source}-p{page}-{chunk_text[:50]}".encode("utf-8")).hexdigest()`. -/
def _generate_chunk_id (source : String) (page : Nat) (chunk_text : String) : String :=
  md5Hex (strBytes (source ++ "-p" ++ toString page ++ "-" ++ chunk_text.take 50))

/-- The body of the `for page_data in batch_results` loop of
`DocumentChunker.chunk_batch` (`chunking.py` lines 60-98).

* `headerSplit` is `self.header_splitter.split_text` (the langchain
  `MarkdownHeaderTextSplitter` built in `__init__`); `.error` models a
  raised exception, handled by falling back to
  `[Document(page_content=text)]`.
* `semanticSplit` is `self.semantic_splitter.split_documents` (the
  langchain `SemanticChunker` over the constructor's embedding model);
  `.error` models a raised exception, handled by falling back to
  `header_splits`.
* An absent or blank `text` is skipped (`continue`), producing no chunks.
* `chunk_strategy` is the literal `"semantic"`. -/
def chunkPage (headerSplit : String → Except String (List Doc))
    (semanticSplit : List Doc → Except String (List Doc))
    (page_data : PageResult) : List Chunk :=
  let text := (page_data.text).getD ""
  if pyStrip text = "" then []
  else
    let page_num := page_data.page_num
    let original_metadata := page_data.metadata
    let source_file := (original_metadata.map PageMeta.source).getD "unknown_file"
    let header_splits :=
      match headerSplit text with
      | .ok hs => hs
      | .error _ => [⟨text, []⟩]
    let final_splits :=
      match semanticSplit header_splits with
      | .ok fs => fs
      | .error _ => header_splits
    final_splits.map (fun split =>
      ⟨_generate_chunk_id source_file page_num split.page_content,
       split.page_content,
       ⟨original_metadata, split.metadata, page_num, "semantic"⟩⟩)

/-- `DocumentChunker.chunk_batch`: the loop over `batch_results`
accumulating `all_chunks`. -/
def chunk_batch (headerSplit : String → Except String (List Doc))
    (semanticSplit : List Doc → Except String (List Doc))
    (batch_results : List PageResult) : List Chunk :=
  concatMap (chunkPage headerSplit semanticSplit) batch_results

/-- A header splitter that always succeeds, for concrete witnesses. -/
def hsOK : String → Except String (List Doc) := fun t => .ok [⟨t, []⟩]

/-- A semantic splitter that returns its input, for concrete witnesses. -/
def ssOK : List Doc → Except String (List Doc) := fun ds => .ok ds

/-- Membership in a `concatMap` comes from membership in one piece. -/
theorem mem_concatMap {α β : Type} (f : α → List β) (l : List α) (b : β) :
    b ∈ concatMap f l ↔ ∃ a, a ∈ l ∧ b ∈ f a := by
  induction l with
  | nil => simp [concatMap]
  | cons x xs ih =>
    simp only [concatMap, List.mem_append, ih, List.mem_cons]
    constructor
    · rintro (hb | ⟨a, ha, hb⟩)
      · exact ⟨x, Or.inl rfl, hb⟩
      · exact ⟨a, Or.inr ha, hb⟩
    · rintro ⟨a, ha | ha, hb⟩
      · exact Or.inl (ha ▸ hb)
      · exact Or.inr ⟨a, ha, hb⟩

/-- The digest part of every byte string is 16 bytes long. -/
theorem md5Bytes_length (msg : List Nat) : (md5Bytes msg).length = 16 := by
  unfold md5Bytes
  generalize (toBlocks (md5Pad msg)).foldl md5Block
      (1732584193, 4023233417, 2562383102, 271733878) = st
  obtain ⟨a, b, c, d⟩ := st
  simp [le32]

/-- `concatMap` over a two-element producer doubles the length. -/
theorem concatMap_pair_length {α : Type} (f g : α → Char) (l : List α) :
    (concatMap (fun b => [f b, g b]) l).length = 2 * l.length := by
  induction l with
  | nil => simp [concatMap]
  | cons x xs ih => simp [concatMap, ih]; omega

/-- Every chunk produced by `chunkPage` carries the hardcoded
`"semantic"` strategy tag. -/
theorem chunkPage_strategy (headerSplit : String → Except String (List Doc))
    (semanticSplit : List Doc → Except String (List Doc))
    (pd : PageResult) (c : Chunk) (hc : c ∈ chunkPage headerSplit semanticSplit pd) :
    c.metadata.chunk_strategy = "semantic" := by
  unfold chunkPage at hc
  by_cases hb : pyStrip ((pd.text).getD "") = ""
  · simp [hb] at hc
  · simp only [hb, if_false] at hc
    obtain ⟨split, _, rfl⟩ := List.mem_map.mp hc
    rfl

/-- C3: the chunk id is the hex digest (32 hex characters of a 128-bit
MD5) of `"{source}-p{page_num}-"` followed by the first 50 characters of
the chunk text; ids of chunks produced by `chunk_batch` have exactly this
form for the page's source and page number; ids depend only on the first
50 characters of the text; and the computation is deterministic, so
identical `(source, page_num, text)` always yields the identical id. -/
theorem C3_chunk_id :
    (∀ source page text, _generate_chunk_id source page text
        = md5Hex (strBytes (source ++ "-p" ++ toString page ++ "-" ++ text.take 50)))
    ∧ (∀ source page t₁ t₂, t₁.take 50 = t₂.take 50 →
        _generate_chunk_id source page t₁ = _generate_chunk_id source page t₂)
    ∧ (∀ headerSplit semanticSplit batch c, c ∈ chunk_batch headerSplit semanticSplit batch →
        ∃ pd, pd ∈ batch ∧
          c.id = _generate_chunk_id (((pd.metadata).map PageMeta.source).getD "unknown_file")
                   pd.page_num c.text)
    ∧ (∀ source page text, (_generate_chunk_id source page text).length = 32) := by
  refine ⟨fun _ _ _ => rfl, ?_, ?_, ?_⟩
  · intro source page t₁ t₂ h
    unfold _generate_chunk_id
    rw [h]
  · intro headerSplit semanticSplit batch c hc
    obtain ⟨pd, hpd, hcp⟩ := (mem_concatMap _ _ _).mp hc
    refine ⟨pd, hpd, ?_⟩
    unfold chunkPage at hcp
    by_cases hb : pyStrip ((pd.text).getD "") = ""
    · simp [hb] at hcp
    · simp only [hb, if_false] at hcp
      obtain ⟨split, _, rfl⟩ := List.mem_map.mp hcp
      rfl
  · intro source page text
    show (bytesToHex (md5Bytes _)).length = 32
    unfold bytesToHex
    show (concatMap _ (md5Bytes _)).length = 32
    rw [concatMap_pair_length, md5Bytes_length]

set_option maxRecDepth 40000 in
/-- Witness for C3: the id of a concrete chunk matches the MD5 hex digest
of `"doc.pdf-p3-Hello world"` as computed by `hashlib.md5`, two texts
agreeing on their first 50 characters share an id, and the digest has 32
hex characters. -/
theorem C3_chunk_id_witness :
    _generate_chunk_id "doc.pdf" 3 "Hello world"
        = md5Hex (strBytes ("doc.pdf" ++ "-p" ++ toString 3 ++ "-" ++ ("Hello world").take 50))
    ∧ _generate_chunk_id "doc.pdf" 3 "Hello world"
        = "00dbaa91f2667672b941291ead142493"
    ∧ _generate_chunk_id "a" 1 ((String.mk (List.replicate 50 'x')) ++ "tail")
        = _generate_chunk_id "a" 1 ((String.mk (List.replicate 50 'x')) ++ "other")
    ∧ (_generate_chunk_id "doc.pdf" 3 "Hello world").length = 32 :=
  ⟨C3_chunk_id.1 "doc.pdf" 3 "Hello world",
   by decide,
   C3_chunk_id.2.1 "a" 1 _ _ (by decide),
   C3_chunk_id.2.2.2 "doc.pdf" 3 "Hello world"⟩

/-- C4 counterexample: no construction of the chunker can produce a chunk
tagged `"size"`.  `DocumentChunker.__init__` takes only an embedding
model; both splitters the constructor builds are covered by quantifying
over every possible `headerSplit` and `semanticSplit` behaviour, and
`chunk_batch` hardcodes `chunk_strategy = "semantic"` — so the
size-bounded strategy claimed to be selectable at construction time does
not exist. -/
theorem C4_counterexample :
    ¬ ∃ (headerSplit : String → Except String (List Doc))
        (semanticSplit : List Doc → Except String (List Doc))
        (batch : List PageResult) (c : Chunk),
        c ∈ chunk_batch headerSplit semanticSplit batch
          ∧ c.metadata.chunk_strategy = "size" := by
  rintro ⟨headerSplit, semanticSplit, batch, c, hc, hs⟩
  obtain ⟨pd, _, hcp⟩ := (mem_concatMap _ _ _).mp hc
  rw [chunkPage_strategy headerSplit semanticSplit pd c hcp] at hs
  exact absurd hs (by decide)

/-- C4 (amended): the chunker implements a single strategy; for every
constructor configuration (any header splitter and any semantic splitter
derived from any embedding model) and every batch, every produced chunk's
`chunk_strategy` tag equals the constant `"semantic"`, which is one of
the two enum values `{"size", "semantic"}`. -/
theorem C4_single_strategy_amended
    (headerSplit : String → Except String (List Doc))
    (semanticSplit : List Doc → Except String (List Doc))
    (batch : List PageResult) (c : Chunk)
    (hc : c ∈ chunk_batch headerSplit semanticSplit batch) :
    c.metadata.chunk_strategy = "semantic"
      ∧ c.metadata.chunk_strategy ∈ ["size", "semantic"] := by
  obtain ⟨pd, _, hcp⟩ := (mem_concatMap _ _ _).mp hc
  have h := chunkPage_strategy headerSplit semanticSplit pd c hcp
  exact ⟨h, by rw [h]; simp⟩

/-- Witness for C4 (amended) at a concrete chunker and one-page batch. -/
theorem C4_single_strategy_witness :
    ∃ c, c ∈ chunk_batch hsOK ssOK [⟨1, some "Hello", some ⟨"doc.pdf", 1, 150⟩, none⟩]
      ∧ c.metadata.chunk_strategy = "semantic"
      ∧ c.metadata.chunk_strategy ∈ ["size", "semantic"] := by
  have hmem : (⟨_generate_chunk_id "doc.pdf" 1 "Hello", "Hello",
      ⟨some ⟨"doc.pdf", 1, 150⟩, [], 1, "semantic"⟩⟩ : Chunk)
      ∈ chunk_batch hsOK ssOK [⟨1, some "Hello", some ⟨"doc.pdf", 1, 150⟩, none⟩] := by
    have h : chunk_batch hsOK ssOK [⟨1, some "Hello", some ⟨"doc.pdf", 1, 150⟩, none⟩]
        = [⟨_generate_chunk_id "doc.pdf" 1 "Hello", "Hello",
           ⟨some ⟨"doc.pdf", 1, 150⟩, [], 1, "semantic"⟩⟩] := rfl
    rw [h]
    exact List.mem_singleton_self _
  exact ⟨_, hmem, C4_single_strategy_amended hsOK ssOK _ _ hmem⟩

/-- C7: splitting failures never drop page text.  First conjunct: if the
header split raises on the page text, `chunk_batch` proceeds exactly as
if the splitter had returned the whole text as one section.  Second
conjunct: if the header split returns `hsplits` and the semantic split
raises on them, the produced chunks are the sections unchanged — one
segment per section (for a blank page nothing is produced either way). -/
theorem C7_split_fallback
    (headerSplit : String → Except String (List Doc))
    (semanticSplit : List Doc → Except String (List Doc))
    (pd : PageResult) :
    (∀ e, headerSplit ((pd.text).getD "") = .error e →
      chunkPage headerSplit semanticSplit pd
        = chunkPage (fun t => .ok [⟨t, []⟩]) semanticSplit pd)
    ∧ (∀ hsplits e, headerSplit ((pd.text).getD "") = .ok hsplits →
        semanticSplit hsplits = .error e →
        (chunkPage headerSplit semanticSplit pd).map Chunk.text
          = if pyStrip ((pd.text).getD "") = "" then []
            else hsplits.map Doc.page_content) := by
  constructor
  · intro e he
    simp only [chunkPage, he]
  · intro hsplits e hh hse
    by_cases hb : pyStrip ((pd.text).getD "") = ""
    · simp [chunkPage, hb]
    · simp only [chunkPage, hb, hh, hse, if_false, List.map_map]
      rfl

/-- Witness for C7 with both splitters failing on a concrete page: the
header fallback makes the whole text one section, and the semantic
fallback keeps the header sections, so the page yields exactly one chunk
carrying the whole page text. -/
theorem C7_split_fallback_witness :
    (chunkPage (fun _ => Except.error "md fail") (fun _ => Except.error "sem fail")
        ⟨1, some "Hello", some ⟨"doc.pdf", 1, 150⟩, none⟩
      = chunkPage (fun t => .ok [⟨t, []⟩]) (fun _ => Except.error "sem fail")
        ⟨1, some "Hello", some ⟨"doc.pdf", 1, 150⟩, none⟩)
    ∧ ((chunkPage hsOK (fun _ => Except.error "sem fail")
        ⟨1, some "Hello", some ⟨"doc.pdf", 1, 150⟩, none⟩).map Chunk.text
      = ["Hello"]) := by
  constructor
  · exact (C7_split_fallback (fun _ => Except.error "md fail")
      (fun _ => Except.error "sem fail") ⟨1, some "Hello", some ⟨"doc.pdf", 1, 150⟩, none⟩).1
      "md fail" rfl
  · have h := (C7_split_fallback hsOK (fun _ => Except.error "sem fail")
      ⟨1, some "Hello", some ⟨"doc.pdf", 1, 150⟩, none⟩).2
      [⟨"Hello", []⟩] "sem fail" rfl rfl
    rw [h]
    decide

/-- C9: a page whose text is absent, empty or whitespace-only yields zero
chunks and is skipped: `chunk_batch` on the batch equals `chunk_batch` on
the batch without that page, so the remaining pages are still processed. -/
theorem C9_blank_page_skipped
    (headerSplit : String → Except String (List Doc))
    (semanticSplit : List Doc → Except String (List Doc))
    (pd : PageResult) (pre post : List PageResult)
    (h : pyStrip ((pd.text).getD "") = "") :
    chunkPage headerSplit semanticSplit pd = []
      ∧ chunk_batch headerSplit semanticSplit (pre ++ pd :: post)
        = chunk_batch headerSplit semanticSplit (pre ++ post) := by
  have hnil : chunkPage headerSplit semanticSplit pd = [] := by
    unfold chunkPage
    simp [h]
  refine ⟨hnil, ?_⟩
  unfold chunk_batch
  induction pre with
  | nil => simp [concatMap, hnil]
  | cons x xs ih => simp [concatMap, ih]

/-- Witness for C9: a whitespace-only page between two real pages
contributes nothing, and the neighbours are still chunked. -/
theorem C9_blank_page_skipped_witness :
    pyStrip (((⟨2, some " \t\n", some ⟨"doc.pdf", 3, 150⟩, none⟩ : PageResult).text).getD "") = ""
    ∧ chunkPage hsOK ssOK ⟨2, some " \t\n", some ⟨"doc.pdf", 3, 150⟩, none⟩ = []
    ∧ chunk_batch hsOK ssOK
        [⟨1, some "A", some ⟨"doc.pdf", 3, 150⟩, none⟩,
         ⟨2, some " \t\n", some ⟨"doc.pdf", 3, 150⟩, none⟩,
         ⟨3, some "B", some ⟨"doc.pdf", 3, 150⟩, none⟩]
      = chunk_batch hsOK ssOK
        [⟨1, some "A", some ⟨"doc.pdf", 3, 150⟩, none⟩,
         ⟨3, some "B", some ⟨"doc.pdf", 3, 150⟩, none⟩] := by
  have h := C9_blank_page_skipped hsOK ssOK
    ⟨2, some " \t\n", some ⟨"doc.pdf", 3, 150⟩, none⟩
    [⟨1, some "A", some ⟨"doc.pdf", 3, 150⟩, none⟩]
    [⟨3, some "B", some ⟨"doc.pdf", 3, 150⟩, none⟩] (by decide)
  exact ⟨by decide, h.1, h.2⟩

/-! ### `main.py` — `process_job` -/

/-- The shapes of `json.loads(body)` that `process_job` distinguishes:

* `notJson` — `json.loads` raises `json.JSONDecodeError`;
* `nonObject` — `json.loads` succeeds but returns a non-dict value
  (array, string, number, `null`), so `job_data.get(...)` raises
  `AttributeError`;
* `object bucket key` — a JSON object; `bucket`/`key` are its optional
  string entries (`none` models an absent key). -/
inductive Payload
  | notJson
  | nonObject
  | object (bucket : Option String) (key : Option String)
deriving DecidableEq, Repr

/-- The queue disposition of a job: `ch.basic_ack` or
`ch.basic_nack(requeue=False)`.  `process_job` never requeues. -/
inductive JobOutcome
  | acked
  | nackedNoRequeue
deriving DecidableEq, Repr

/-- `process_job` (`main.py` lines 105-155), returning the queue
disposition and the final `total_chunks` counter.

* `defaultBucket` is the `MINIO_BUCKET_NAME` fallback of
  `job_data.get("bucket", MINIO_BUCKET_NAME)`.
* `download` is `download_file_from_minio` (returns `None` on failure);
  `if not pdf_bytes` also treats empty bytes as a failure.
* A missing or empty `key` (`if not object_name`) is acknowledged and
  dropped.
* The `nonObject` payload raises inside the `try`, reaching the generic
  `except Exception` handler: nack without requeue.
* `pdfinfo` is `pdfinfo_from_bytes` applied to the downloaded bytes;
  a parse-level `ValueError` propagates to the generic handler: nack
  without requeue.
* On a successful stream, each batch is chunked and counted, then the
  message is acknowledged. -/
def process_job {Image : Type} (defaultBucket : String) (body : Payload)
    (download : String → String → Option (List Nat))
    (pdfinfo : List Nat → Except String Nat)
    (render : Nat → Nat → Except String (List Image))
    (backend : Image → Except String String)
    (fault : Nat → Option String)
    (headerSplit : String → Except String (List Doc))
    (semanticSplit : List Doc → Except String (List Doc)) :
    JobOutcome × Nat :=
  match body with
  | .notJson => (.acked, 0)
  | .nonObject => (.nackedNoRequeue, 0)
  | .object bucket key =>
    let bucket_name := bucket.getD defaultBucket
    let object_name := key.getD ""
    if object_name = "" then (.acked, 0)
    else
      match download bucket_name object_name with
      | none => (.nackedNoRequeue, 0)
      | some pdf_bytes =>
        if pdf_bytes = [] then (.nackedNoRequeue, 0)
        else
          let filename := basename object_name
          match parse_pdf_in_batches (pdfinfo pdf_bytes) render backend fault
              filename 10 150 with
          | .error _ => (.nackedNoRequeue, 0)
          | .ok batches =>
            (.acked,
             (batches.map (fun batch =>
               (chunk_batch headerSplit semanticSplit batch).length)).sum)

/-- C5 counterexample: a payload that parses to a JSON non-object (for
example the body `[1, 2, 3]`) has no `key` field, yet `process_job`
rejects it without requeue instead of acknowledging it:
`job_data.get("bucket", ...)` raises `AttributeError`, which falls into
the generic `except Exception` handler and calls
`basic_nack(requeue=False)`, not `basic_ack`. -/
theorem C5_counterexample :
    (process_job "documents" .nonObject
        (fun _ _ => some [37]) (fun _ => .ok 1) (fun _ _ => .ok [()])
        (fun _ => .ok "text") (fun _ => none) hsOK ssOK)
      = (.nackedNoRequeue, 0)
    ∧ JobOutcome.nackedNoRequeue ≠ JobOutcome.acked := by
  exact ⟨rfl, by decide⟩

/-- C5 (amended): for every job message, with every collaborator
behaviour: an unparseable payload is acknowledged with zero chunks; a
JSON-object payload with a missing (or empty) `key` is acknowledged with
zero chunks; a payload parsing to a non-object JSON value is rejected
without requeue (not acknowledged); a job whose download returns no bytes
(`None` or empty) is rejected without requeue; a job whose streaming
raises (unreadable page count) is rejected without requeue; and a job
whose stream of windows completes is acknowledged, with `total_chunks`
the sum of the chunks of each batch. -/
theorem C5_job_outcomes_amended {Image : Type} (defaultBucket : String)
    (download : String → String → Option (List Nat))
    (pdfinfo : List Nat → Except String Nat)
    (render : Nat → Nat → Except String (List Image))
    (backend : Image → Except String String)
    (fault : Nat → Option String)
    (headerSplit : String → Except String (List Doc))
    (semanticSplit : List Doc → Except String (List Doc)) :
    (process_job defaultBucket .notJson download pdfinfo render backend fault
        headerSplit semanticSplit = (.acked, 0))
    ∧ (∀ bucket, process_job defaultBucket (.object bucket none) download pdfinfo
        render backend fault headerSplit semanticSplit = (.acked, 0))
    ∧ (process_job defaultBucket .nonObject download pdfinfo render backend fault
        headerSplit semanticSplit = (.nackedNoRequeue, 0))
    ∧ (∀ bucket key, key ≠ "" →
        download (bucket.getD defaultBucket) key = none →
        process_job defaultBucket (.object bucket (some key)) download pdfinfo
          render backend fault headerSplit semanticSplit = (.nackedNoRequeue, 0))
    ∧ (∀ bucket key, key ≠ "" →
        download (bucket.getD defaultBucket) key = some [] →
        process_job defaultBucket (.object bucket (some key)) download pdfinfo
          render backend fault headerSplit semanticSplit = (.nackedNoRequeue, 0))
    ∧ (∀ bucket key pdf_bytes e, key ≠ "" →
        download (bucket.getD defaultBucket) key = some pdf_bytes →
        pdf_bytes ≠ [] → pdfinfo pdf_bytes = .error e →
        process_job defaultBucket (.object bucket (some key)) download pdfinfo
          render backend fault headerSplit semanticSplit = (.nackedNoRequeue, 0))
    ∧ (∀ bucket key pdf_bytes batches, key ≠ "" →
        download (bucket.getD defaultBucket) key = some pdf_bytes →
        pdf_bytes ≠ [] →
        parse_pdf_in_batches (pdfinfo pdf_bytes) render backend fault
          (basename key) 10 150 = .ok batches →
        process_job defaultBucket (.object bucket (some key)) download pdfinfo
          render backend fault headerSplit semanticSplit
          = (.acked, (batches.map (fun batch =>
              (chunk_batch headerSplit semanticSplit batch).length)).sum)) := by
  refine ⟨rfl, fun bucket => rfl, rfl, ?_, ?_, ?_, ?_⟩
  · intro bucket key hk hdl
    cases bucket <;> simp only [Option.getD] at hdl <;>
      simp [process_job, Option.getD, hk, hdl]
  · intro bucket key hk hdl
    cases bucket <;> simp only [Option.getD] at hdl <;>
      simp [process_job, Option.getD, hk, hdl]
  · intro bucket key pdf_bytes e hk hdl hb hinfo
    cases bucket <;> simp only [Option.getD] at hdl <;>
      simp [process_job, Option.getD, hk, hdl, hb, hinfo, parse_pdf_in_batches]
  · intro bucket key pdf_bytes batches hk hdl hb hparse
    cases bucket <;> simp only [Option.getD] at hdl <;>
      simp [process_job, Option.getD, hk, hdl, hb, hparse]

/-- Witness for C5 (amended), discharging each conditional branch at
concrete collaborators: a missing-key object is acked with zero chunks, a
failed download and an unreadable page count are nacked without requeue,
and a completed two-page stream is acked with its chunk total. -/
theorem C5_job_outcomes_witness :
    (process_job "documents" (.object none none)
        (fun _ _ => none) (fun _ => .ok 1) (fun _ _ => .ok [()])
        (fun _ => .ok "text") (fun _ => none) hsOK ssOK = (.acked, 0))
    ∧ (process_job "documents" (.object none (some "a.pdf"))
        (fun _ _ => none) (fun _ => .ok 1) (fun _ _ => .ok [()])
        (fun _ => .ok "text") (fun _ => none) hsOK ssOK = (.nackedNoRequeue, 0))
    ∧ (process_job "documents" (.object none (some "a.pdf"))
        (fun _ _ => some [37]) (fun _ => .error "bad pdf") (fun _ _ => .ok [()])
        (fun _ => .ok "text") (fun _ => none) hsOK ssOK = (.nackedNoRequeue, 0))
    ∧ (process_job "documents" (.object none (some "a.pdf"))
        (fun _ _ => some [37]) (fun _ => .ok 1) (fun _ _ => .ok [()])
        (fun _ => .ok "text") (fun _ => none) hsOK ssOK = (.acked, 1)) := by
  refine ⟨(C5_job_outcomes_amended "documents"
      (fun _ _ => none) (fun _ => .ok 1) (fun _ _ => .ok [()])
      (fun _ => .ok "text") (fun _ => none) hsOK ssOK).2.1 none,
    (C5_job_outcomes_amended "documents"
      (fun _ _ => none) (fun _ => .ok 1) (fun _ _ => .ok [()])
      (fun _ => .ok "text") (fun _ => none) hsOK ssOK).2.2.2.1 none "a.pdf"
      (by decide) rfl,
    (C5_job_outcomes_amended "documents"
      (fun _ _ => some [37]) (fun _ => .error "bad pdf") (fun _ _ => .ok [()])
      (fun _ => .ok "text") (fun _ => none) hsOK ssOK).2.2.2.2.2.1 none "a.pdf"
      [37] "bad pdf" (by decide) rfl (by decide) rfl,
    ?_⟩
  have h := (C5_job_outcomes_amended "documents"
      (fun _ _ => some [37]) (fun _ => .ok 1) (fun _ _ => .ok [()])
      (fun _ => .ok "text") (fun _ => none) hsOK ssOK).2.2.2.2.2.2 none "a.pdf"
      [37] [[⟨1, some "text", some ⟨"a.pdf", 1, 150⟩, none⟩]]
      (by decide) rfl (by decide) rfl
  rw [h]
  rfl

/-! ### Window failure behaviour (`pdf_parser.py` lines 89-136) -/

/-- The `start_page` values of the batching loop:
`range(1, total_pages + 1, batch_size)`. -/
def windowStarts (total_pages batch_size : Nat) : List Nat :=
  pyRange 1 (total_pages + 1) batch_size

/-- If every page of a window before position `p₀` is fault-free and a
fault hits position `p₀`, the window loop raises with that fault,
discarding the page results accumulated so far. -/
theorem transcribeImages_fault {Image : Type}
    (backend : Image → Except String String) (fault : Nat → Option String)
    (src : String) (n dpi : Nat) (e : String) :
    ∀ (imgs : List Image) (s p₀ : Nat),
      (∀ i, i < p₀ → fault (s + i) = none) →
      p₀ < imgs.length → fault (s + p₀) = some e →
      transcribeImages backend fault src n dpi s imgs = .error e := by
  intro imgs
  induction imgs with
  | nil =>
    intro s p₀ _ hp _
    simp at hp
  | cons img rest ih =>
    intro s p₀ hnone hp hf
    cases p₀ with
    | zero =>
      rw [Nat.add_zero] at hf
      unfold transcribeImages
      rw [hf]
    | succ p =>
      have h0 : fault s = none := by
        have := hnone 0 (Nat.succ_pos p)
        rwa [Nat.add_zero] at this
      have hrec : transcribeImages backend fault src n dpi (s + 1) rest = .error e := by
        apply ih (s + 1) p
        · intro i hi
          have := hnone (i + 1) (Nat.succ_lt_succ hi)
          rwa [show s + (i + 1) = s + 1 + i by omega] at this
        · simpa using hp
        · rwa [show s + (p + 1) = s + 1 + p by omega] at hf
      unfold transcribeImages
      rw [h0, hrec]

/-- Fault-free case: a window's images transcribe to one result per
image, with consecutive page numbers starting at `start_page`. -/
theorem transcribeImages_ok {Image : Type}
    (backend : Image → Except String String) (src : String) (n dpi : Nat) :
    ∀ (imgs : List Image) (s : Nat),
      ∃ prs, transcribeImages backend (fun _ => none) src n dpi s imgs = .ok prs
        ∧ prs.map PageResult.page_num = natRange s imgs.length := by
  intro imgs
  induction imgs with
  | nil => intro s; exact ⟨[], rfl, rfl⟩
  | cons img rest ih =>
    intro s
    obtain ⟨prs, hok, hmap⟩ := ih (s + 1)
    refine ⟨⟨s, some (_run_inference backend img), some ⟨src, n, dpi⟩, none⟩ :: prs, ?_, ?_⟩
    · unfold transcribeImages
      rw [hok]
    · simp only [List.map_cons, hmap, List.length_cons]
      rfl

/-- C2 counterexample: a 2-page document with `batch_size = 1` whose
first window's rendering raises.  The failed window yields the
single-element batch `[{"page_num": 1, "error": "boom"}]` — its element
has no `text` entry at all (`text = none`), not `text = ""` as claimed —
and the next window is still produced. -/
theorem C2_counterexample :
    parse_pdf_in_batches (.ok 2)
        (fun s _ => if s = 1 then .error "boom" else .ok [()])
        (fun _ => .ok "t") (fun _ => none) "doc" 1 150
      = .ok [[⟨1, none, none, some "boom"⟩],
             [⟨2, some "t", some ⟨"doc", 2, 150⟩, none⟩]]
    ∧ (⟨1, none, none, some "boom"⟩ : PageResult).text ≠ some "" := by
  exact ⟨rfl, by decide⟩

/-- C2 (amended): if rendering (or a fault inside the page loop, see C10)
raises for a window, `parse_pdf_in_batches` does not terminate the
sequence: the `except` branch yields a single-element batch whose one
element has `error` set and carries no `text` entry (`text = none`, not
the empty string), and one batch is still produced for every window, so
the following window's batch is still emitted afterward. -/
theorem C2_render_failure_amended {Image : Type} (n b dpi k : Nat) (e : String)
    (render : Nat → Nat → Except String (List Image))
    (backend : Image → Except String String)
    (fault : Nat → Option String) (src : String) (s : Nat)
    (hs : (windowStarts n b)[k]? = some s)
    (hr : render s (min (s + b) n) = .error e) :
    ∃ batches,
      parse_pdf_in_batches (.ok n) render backend fault src b dpi = .ok batches
      ∧ batches.length = (windowStarts n b).length
      ∧ batches[k]? = some [⟨s, none, none, some e⟩]
      ∧ (k + 1 < (windowStarts n b).length → ∃ next, batches[k + 1]? = some next) := by
  refine ⟨_, rfl, by simp [parse_pdf_in_batches, windowStarts], ?_, ?_⟩
  · show ((pyRange 1 (n + 1) b).map _)[k]? = _
    rw [List.getElem?_map]
    rw [show (pyRange 1 (n + 1) b)[k]? = some s from hs]
    simp only [Option.map_some']
    rw [hr]
  · intro hk1
    have hk1m : k + 1 < ((pyRange 1 (n + 1) b).map (fun start_page =>
        match render start_page (min (start_page + b) n) with
        | .error e => [(⟨start_page, none, none, some e⟩ : PageResult)]
        | .ok images =>
          match transcribeImages backend fault src n dpi start_page images with
          | .error e => [(⟨start_page, none, none, some e⟩ : PageResult)]
          | .ok batch_results => batch_results)).length := by
      simpa [windowStarts] using hk1
    exact ⟨_, List.getElem?_eq_getElem hk1m⟩

/-- Witness for C2 (amended): the concrete two-window run of the
counterexample, obtained by applying the amended theorem. -/
theorem C2_render_failure_witness :
    ∃ batches,
      parse_pdf_in_batches (.ok 2)
          (fun s _ => if s = 1 then .error "boom" else .ok [()])
          (fun _ => .ok "t") (fun _ => none) "doc" 1 150 = .ok batches
      ∧ batches.length = (windowStarts 2 1).length
      ∧ batches[0]? = some [⟨1, none, none, some "boom"⟩]
      ∧ (0 + 1 < (windowStarts 2 1).length → ∃ next, batches[0 + 1]? = some next) :=
  C2_render_failure_amended 2 1 150 0 "boom"
    (fun s _ => if s = 1 then .error "boom" else .ok [()])
    (fun _ => .ok "t") (fun _ => none) "doc" 1 rfl rfl

/-- C10: if an exception occurs partway through a window — after the
pages before position `p₀` of the window were already transcribed
successfully — the accumulated per-page results of that window are
discarded and the batch yielded for the window is exactly one dict
containing only `page_num` (the window's first page) and `error`
(`text = none` and `metadata = none`: no such keys), while every other
window still yields its own batch. -/
theorem C10_partial_window_discarded {Image : Type} (n b dpi k p₀ : Nat)
    (e : String) (render : Nat → Nat → Except String (List Image))
    (backend : Image → Except String String)
    (fault : Nat → Option String) (src : String) (s : Nat)
    (imgs : List Image)
    (hs : (windowStarts n b)[k]? = some s)
    (hr : render s (min (s + b) n) = .ok imgs)
    (hnone : ∀ i, i < p₀ → fault (s + i) = none)
    (hp : p₀ < imgs.length)
    (hf : fault (s + p₀) = some e) :
    ∃ batches,
      parse_pdf_in_batches (.ok n) render backend fault src b dpi = .ok batches
      ∧ batches.length = (windowStarts n b).length
      ∧ batches[k]? = some [⟨s, none, none, some e⟩] := by
  refine ⟨_, rfl, by simp [parse_pdf_in_batches, windowStarts], ?_⟩
  show ((pyRange 1 (n + 1) b).map _)[k]? = _
  rw [List.getElem?_map]
  rw [show (pyRange 1 (n + 1) b)[k]? = some s from hs]
  simp only [Option.map_some']
  simp only [hr, transcribeImages_fault backend fault src n dpi e imgs s p₀ hnone hp hf]

/-- Witness for C10: a 3-page single-window document where page 1
transcribes fine and a fault hits page 2; the window's batch collapses
to `[{"page_num": 1, "error": "oom"}]`. -/
theorem C10_partial_window_witness :
    ∃ batches,
      parse_pdf_in_batches (.ok 3)
          (fun _ _ => .ok [(), (), ()]) (fun _ => .ok "t")
          (fun p => if p = 2 then some "oom" else none) "doc" 10 150 = .ok batches
      ∧ batches.length = (windowStarts 3 10).length
      ∧ batches[0]? = some [⟨1, none, none, some "oom"⟩] :=
  C10_partial_window_discarded 3 10 150 0 1 "oom"
    (fun _ _ => .ok [(), (), ()]) (fun _ => .ok "t")
    (fun p => if p = 2 then some "oom" else none) "doc" 1 [(), (), ()]
    rfl rfl (fun i hi => by interval_cases i; rfl) (by decide) rfl

/-! ### C1: page coverage of the batching loop -/

/-- `natRange` produces `len` numbers. -/
theorem natRange_length (len : Nat) : ∀ s, (natRange s len).length = len := by
  induction len with
  | zero => intro s; rfl
  | succ len ih => intro s; simp [natRange, ih (s + 1)]

/-- Occurrences of `p` in `natRange s len`: one if `s ≤ p < s + len`,
none otherwise. -/
theorem count_natRange (p : Nat) :
    ∀ (len s : Nat), (natRange s len).count p
      = if s ≤ p ∧ p < s + len then 1 else 0 := by
  intro len
  induction len with
  | zero =>
    intro s
    simp only [natRange, List.count_nil]
    rw [if_neg (by omega)]
  | succ len ih =>
    intro s
    simp only [natRange, List.count_cons, ih (s + 1), beq_iff_eq]
    split_ifs <;> omega

/-- Counting distributes over `concatMap`. -/
theorem count_concatMap {α : Type} (f : α → List Nat) (p : Nat) :
    ∀ l, (concatMap f l).count p = (l.map (fun a => (f a).count p)).sum := by
  intro l
  induction l with
  | nil => rfl
  | cons x xs ih => simp [concatMap, List.count_append, ih]

/-- `concatMap` after a `map` fuses. -/
theorem concatMap_map {α β γ : Type} (g : β → List γ) (f : α → β) (l : List α) :
    concatMap g (l.map f) = concatMap (fun a => g (f a)) l := by
  induction l with
  | nil => rfl
  | cons x xs ih => simp [concatMap, ih]

/-- `concatMap` respects pointwise equality on the list. -/
theorem concatMap_congr {α β : Type} {f g : α → List β} :
    ∀ {l}, (∀ a ∈ l, f a = g a) → concatMap f l = concatMap g l := by
  intro l
  induction l with
  | nil => intro _; rfl
  | cons x xs ih =>
    intro h
    simp only [concatMap]
    rw [h x (List.mem_cons_self x xs), ih (fun a ha => h a (List.mem_cons_of_mem x ha))]

/-- Summing an interval indicator over `0, ..., W-1`. -/
theorem sum_indicator_range (lo hi : Nat) :
    ∀ W, ((List.range W).map (fun k => if lo ≤ k ∧ k ≤ hi then 1 else 0)).sum
      = min (hi + 1) W - min lo W := by
  intro W
  induction W with
  | zero => simp
  | succ W ih =>
    rw [List.range_succ, List.map_append, List.sum_append]
    simp only [List.map_cons, List.map_nil, List.sum_cons, List.sum_nil, ih]
    split_ifs <;> omega

/-- Cancellation of multiplication by a positive number on the right. -/
theorem mul_le_right_cancel {b : Nat} (hb : 0 < b) {x y : Nat}
    (h : x * b ≤ y * b) : x ≤ y := by
  by_contra hxy
  push_neg at hxy
  have h1 : (y + 1) * b ≤ x * b := Nat.mul_le_mul_right b hxy
  have h2 : (y + 1) * b = y * b + b := Nat.succ_mul y b
  omega

/-- The window starting at `1 + k * b` contains the page `q + 1` exactly
when `k` lies between `⌈q/b⌉ - 1`-ish bounds: in divisor terms, between
`q / b - 1` (when `b` divides `q`) or `q / b` (otherwise) and `q / b`. -/
theorem window_hits (b q k : Nat) (hb : 0 < b) :
    (k * b ≤ q ∧ q ≤ k * b + b)
      ↔ ((if q % b = 0 then q / b - 1 else q / b) ≤ k ∧ k ≤ q / b) := by
  have hq : b * (q / b) + q % b = q := Nat.div_add_mod q b
  have hcomm : b * (q / b) = (q / b) * b := Nat.mul_comm b (q / b)
  have hrb : q % b < b := Nat.mod_lt q hb
  constructor
  · rintro ⟨h1, h2⟩
    refine ⟨?_, (Nat.le_div_iff_mul_le hb).mpr h1⟩
    by_cases hr0 : q % b = 0
    · rw [if_pos hr0]
      have hm : (q / b) * b ≤ (k + 1) * b := by
        have hs : (k + 1) * b = k * b + b := Nat.succ_mul k b
        omega
      have := mul_le_right_cancel hb hm
      omega
    · rw [if_neg hr0]
      by_contra hk
      push_neg at hk
      have h3 : (k + 1) * b ≤ (q / b) * b := Nat.mul_le_mul_right b hk
      have hs : (k + 1) * b = k * b + b := Nat.succ_mul k b
      omega
  · rintro ⟨h1, h2⟩
    refine ⟨(Nat.le_div_iff_mul_le hb).mp h2, ?_⟩
    by_cases hr0 : q % b = 0
    · rw [if_pos hr0] at h1
      have hm : (q / b) * b ≤ (k + 1) * b := Nat.mul_le_mul_right b (by omega)
      have hs : (k + 1) * b = k * b + b := Nat.succ_mul k b
      omega
    · rw [if_neg hr0] at h1
      have hm : (q / b) * b ≤ k * b := Nat.mul_le_mul_right b h1
      omega

/-- The multiplicity of each page number across all windows of the
batching loop: page `p` is produced twice when it both ends one window
and starts the next (`p ≥ b + 1` and `b ∣ p - 1`), once for every other
page of `{1..n}`, and never outside the document. -/
theorem count_allPages (n b p : Nat) (hb : 1 ≤ b) :
    (concatMap (fun s => natRange s (min (s + b) n + 1 - s))
        (windowStarts n b)).count p
      = if 1 ≤ p ∧ p ≤ n
        then (if b + 1 ≤ p ∧ (p - 1) % b = 0 then 2 else 1) else 0 := by
  have hb0 : 0 < b := hb
  rw [count_concatMap]
  simp only [windowStarts, pyRange, List.map_map]
  have hW : (n + 1 - 1 + b - 1) / b = 0 ∨ 1 ≤ n := by
    by_cases hn : 1 ≤ n
    · exact Or.inr hn
    · left
      have hn0 : n = 0 := by omega
      subst hn0
      exact Nat.div_eq_of_lt (by omega)
  have hpoint : ∀ k, k ∈ List.range ((n + 1 - 1 + b - 1) / b) →
      ((fun a => (natRange a (min (a + b) n + 1 - a)).count p)
          ∘ (fun k => 1 + k * b)) k
        = if 1 + k * b ≤ p ∧ p ≤ 1 + k * b + b ∧ p ≤ n then 1 else 0 := by
    intro k hk
    have hkW : k < (n + 1 - 1 + b - 1) / b := List.mem_range.mp hk
    have hn1 : 1 ≤ n := by
      rcases hW with h0 | h1
      · omega
      · exact h1
    have hW' : (n + 1 - 1 + b - 1) / b = (n - 1) / b + 1 := by
      rw [show n + 1 - 1 + b - 1 = (n - 1) + b from by omega]
      exact Nat.add_div_right _ hb0
    have hkdiv : k ≤ (n - 1) / b := by omega
    have hkb : k * b ≤ n - 1 := (Nat.le_div_iff_mul_le hb0).mp hkdiv
    have hsn : 1 + k * b ≤ n := by omega
    simp only [Function.comp]
    rw [count_natRange]
    exact if_congr (by omega) rfl rfl
  rw [List.map_congr_left hpoint]
  by_cases hp : 1 ≤ p ∧ p ≤ n
  · obtain ⟨hp1, hpn⟩ := hp
    have hn1 : 1 ≤ n := by omega
    have hW' : (n + 1 - 1 + b - 1) / b = (n - 1) / b + 1 := by
      rw [show n + 1 - 1 + b - 1 = (n - 1) + b from by omega]
      exact Nat.add_div_right _ hb0
    have hiff : ∀ k, (1 + k * b ≤ p ∧ p ≤ 1 + k * b + b ∧ p ≤ n)
        ↔ ((if (p - 1) % b = 0 then (p - 1) / b - 1 else (p - 1) / b) ≤ k
            ∧ k ≤ (p - 1) / b) := by
      intro k
      rw [← window_hits b (p - 1) k hb0]
      generalize k * b = m
      omega
    rw [List.map_congr_left (fun k _ => if_congr (hiff k) rfl rfl)]
    rw [sum_indicator_range, hW']
    have hpp : 1 ≤ p ∧ p ≤ n := ⟨hp1, hpn⟩
    rw [if_pos hpp]
    have hk0 : (p - 1) / b ≤ (n - 1) / b := Nat.div_le_div_right (by omega)
    have hq : b * ((p - 1) / b) + (p - 1) % b = p - 1 := Nat.div_add_mod (p - 1) b
    have hrb : (p - 1) % b < b := Nat.mod_lt (p - 1) hb0
    by_cases hr0 : (p - 1) % b = 0
    · rw [if_pos hr0]
      by_cases hc : b + 1 ≤ p ∧ (p - 1) % b = 0
      · rw [if_pos hc]
        have h1 : 1 ≤ (p - 1) / b := (Nat.le_div_iff_mul_le hb0).mpr (by omega)
        omega
      · rw [if_neg hc]
        have hpb : p ≤ b := by
          rcases Decidable.not_and_iff_or_not.mp hc with h | h
          · omega
          · exact absurd hr0 h
        have hq0 : (p - 1) / b = 0 := Nat.div_eq_of_lt (by omega)
        omega
    · rw [if_neg hr0, if_neg (fun h => hr0 h.2)]
      omega
  · rw [if_neg hp]
    rw [List.map_congr_left (fun k hk => if_neg (by omega))]
    simp

/-- C1 counterexample: a 25-page document with `batch_size = 10` and an
exact pdf2image renderer (`last_page` inclusive: `e + 1 - s` images per
window) yields 3 windows of sizes 11, 11 and 5 — not 10, 10 and 5 — and
page 11 is produced twice, so the windows overlap and the pages are not
covered exactly once. -/
theorem C1_counterexample :
    Except.map (fun batches => batches.map List.length)
        (parse_pdf_in_batches (.ok 25)
          (fun s e => .ok (natRange s (e + 1 - s))) (fun _ => .ok "t")
          (fun _ => none) "doc" 10 150) = .ok [11, 11, 5]
    ∧ ([11, 11, 5] : List Nat) ≠ [10, 10, 5]
    ∧ Except.map (fun batches => (emittedPageNums batches).count 11)
        (parse_pdf_in_batches (.ok 25)
          (fun s e => .ok (natRange s (e + 1 - s))) (fun _ => .ok "t")
          (fun _ => none) "doc" 10 150) = .ok 2
    ∧ (2 : Nat) ≠ 1 :=
  ⟨rfl, by decide, rfl, by decide⟩

/-- C1 (amended): because `end_page = min(start_page + batch_size,
total_pages)` is passed to an inclusive `last_page`, consecutive windows
share one page.  For every document and every positive batch size, under
fault-free processing with an exact renderer, the multiset of emitted
page numbers covers `{1..total_pages}`, with page `p` produced exactly
twice when `p ≥ batch_size + 1` and `batch_size` divides `p - 1` (the
shared boundary pages), exactly once for every other page in range, and
never for pages outside the document; in particular a 25-page document
with `batch_size = 10` yields 3 windows of sizes 11, 11 and 5. -/
theorem C1_page_coverage_amended :
    (∀ (Image : Type) (n b dpi p : Nat)
        (render : Nat → Nat → Except String (List Image))
        (backend : Image → Except String String) (src : String)
        (batches : List (List PageResult)),
      1 ≤ b →
      (∀ s e, ∃ imgs, render s e = .ok imgs ∧ imgs.length = e + 1 - s) →
      parse_pdf_in_batches (.ok n) render backend (fun _ => none) src b dpi
        = .ok batches →
      (emittedPageNums batches).count p
        = if 1 ≤ p ∧ p ≤ n
          then (if b + 1 ≤ p ∧ (p - 1) % b = 0 then 2 else 1) else 0)
    ∧ Except.map (fun batches => batches.map List.length)
        (parse_pdf_in_batches (.ok 25)
          (fun s e => .ok (natRange s (e + 1 - s))) (fun _ => .ok "t")
          (fun _ => none) "doc" 10 150) = .ok [11, 11, 5] := by
  constructor
  · intro Image n b dpi p render backend src batches hb hrender hparse
    simp only [parse_pdf_in_batches] at hparse
    rw [Except.ok.injEq] at hparse
    subst hparse
    rw [emittedPageNums, concatMap_map]
    rw [concatMap_congr (fun s hs => ?_)]
    · have h := count_allPages n b p hb
      simp only [windowStarts] at h
      exact h
    · obtain ⟨imgs, hok, hlen⟩ := hrender s (min (s + b) n)
      obtain ⟨prs, htr, hmap⟩ := transcribeImages_ok backend src n dpi imgs s
      simp only [hok, htr]
      rw [hmap, hlen]
  · rfl

/-- Witness for C1 (amended) at the concrete 25-page, batch-10 run:
page 11 sits on a window boundary and is counted twice. -/
theorem C1_page_coverage_witness :
    ∃ batches,
      parse_pdf_in_batches (.ok 25)
          (fun s e => .ok (natRange s (e + 1 - s))) (fun _ => .ok "t")
          (fun _ => none) "doc" 10 150 = .ok batches
      ∧ (emittedPageNums batches).count 11
          = if 1 ≤ 11 ∧ 11 ≤ 25
            then (if 10 + 1 ≤ 11 ∧ (11 - 1) % 10 = 0 then 2 else 1) else 0 := by
  refine ⟨_, rfl, ?_⟩
  exact C1_page_coverage_amended.1 Nat 25 10 150 11
    (fun s e => .ok (natRange s (e + 1 - s))) (fun _ => .ok "t") "doc" _
    (by decide) (fun s e => ⟨natRange s (e + 1 - s), rfl, natRange_length _ _⟩) rfl
